import Mathlib

/-!
Shallow embedding of `src/vision_interpreter.py` (class `VisionInterpreter`),
together with proofs about its classification, narrative and formatting logic.

Python dictionaries iterate in insertion order (Python 3.7+), so the two rule
catalogs are embedded as association lists in their literal order.  Strings that
appear mojibake-encoded in the source file (the warning mark and the section
icons) are reproduced codepoint-for-codepoint via unicode escapes.
-/

namespace VisionMind

/-- Embedding of the Python `SuspicionLevel` enum. -/
inductive SuspicionLevel where
  | NORMAL
  | UNUSUAL
  | SUSPICIOUS
deriving DecidableEq, Repr

/-- The string payload of each enum member (`SuspicionLevel.NORMAL.value = "normal"` etc.). -/
def SuspicionLevel.value : SuspicionLevel → String
  | .NORMAL => "normal"
  | .UNUSUAL => "unusual"
  | .SUSPICIOUS => "suspicious"

/-- Numeric severity used to state the ordering NORMAL < UNUSUAL < SUSPICIOUS. -/
def SuspicionLevel.rank : SuspicionLevel → Nat
  | .NORMAL => 0
  | .UNUSUAL => 1
  | .SUSPICIOUS => 2

/-- Embedding of the `VisionAnalysis` dataclass. -/
structure VisionAnalysis where
  summary : String
  description : String
  context : String
  suspicion_level : SuspicionLevel
  highlights : List String
deriving DecidableEq, Repr

/-- Python membership `x in l` over a list of strings (element-wise equality). -/
def inList (x : String) (l : List String) : Bool :=
  l.any (fun y => y == x)

/-- The `common_combinations` dict of `VisionInterpreter.__init__`, in insertion order. -/
def common_combinations : List (List String × String) :=
  [ (["person", "dog"], "walking a dog"),
    (["person", "bicycle"], "cycling or with a bicycle"),
    (["person", "car"], "near or entering a vehicle"),
    (["person", "bag"], "carrying belongings"),
    (["person", "phone"], "using a mobile device") ]

/-- The `suspicious_patterns` dict of `VisionInterpreter.__init__`, in insertion order. -/
def suspicious_patterns : List (List String × String) :=
  [ (["person", "window", "night"], "possible intrusion attempt"),
    (["person", "running", "bag"], "potential theft in progress"),
    (["person", "mask", "weapon"], "armed individual"),
    (["fire", "smoke"], "fire hazard detected") ]

/-- Embedding of `VisionInterpreter._generate_summary`. -/
def generate_summary (objects : List String) (scene action : String) : String :=
  if objects.isEmpty then
    "Empty " ++ scene ++ " scene detected."
  else
    let main_subject := objects.headD "object"
    "A " ++ main_subject ++ " " ++ action ++ " in a " ++ scene ++ " setting."

/-- First combination rule (in catalog insertion order) whose trigger contains both
`"person"` and the given object; models the inner `for combo ... break` loop of
`_create_description`. -/
def obj_first_label (obj : String) : Option String :=
  (common_combinations.find? (fun cr => inList "person" cr.1 && inList obj cr.1)).map (·.2)

/-- The `person_desc` accumulation of `_create_description`: the outer loop runs over
`objects` in detection order; a non-person object overwrites `person_desc` with the
label of its first matching combination rule (the inner loop breaks on first match),
and leaves it unchanged when no rule matches. -/
def person_desc_fold (objects : List String) (action : String) : String :=
  objects.foldl
    (fun desc obj =>
      if obj != "person" then
        match obj_first_label obj with
        | some activity => "A person is " ++ activity
        | none => desc
      else desc)
    ("A person is " ++ action)

/-- Embedding of `VisionInterpreter._create_description`. -/
def create_description (objects : List String) (scene action : String) : String :=
  if objects.isEmpty then
    "The camera shows an empty " ++ scene ++ " with no significant activity."
  else
    let desc_parts : List String :=
      if inList "person" objects then [person_desc_fold objects action] else []
    let other_objects := objects.filter (fun o => o != "person")
    let desc_parts := desc_parts ++
      (if other_objects.isEmpty then []
       else if other_objects.length == 1 then
         ["A " ++ other_objects.headD "" ++ " is also visible"]
       else
         ["Also visible: " ++ String.intercalate ", " other_objects])
    String.intercalate ". " desc_parts ++ " on a " ++ scene ++ "."

/-- Embedding of `VisionInterpreter._analyze_context`. -/
def analyze_context (objects : List String) (scene action : String) : String :=
  let sceneCtx : List String :=
    if inList scene ["street", "sidewalk", "road"] then
      ["This appears to be a public urban area"]
    else if inList scene ["park", "garden", "field"] then
      ["This is an outdoor recreational area"]
    else if inList scene ["home", "house", "apartment"] then
      ["This is a residential setting"]
    else if inList scene ["store", "shop", "mall"] then
      ["This is a commercial environment"]
    else []
  let actionCtx : List String :=
    if inList action ["running", "jogging"] then
      ["showing active movement"]
    else if inList action ["sitting", "standing", "waiting"] then
      ["with minimal activity"]
    else if inList action ["walking", "strolling"] then
      ["with normal pedestrian movement"]
    else []
  let objCtx : List String :=
    if inList "person" objects && inList "dog" objects then
      ["likely a pet owner during routine exercise"]
    else if inList "person" objects && inList "bicycle" objects then
      ["suggesting eco-friendly transportation or recreation"]
    else []
  let contexts := sceneCtx ++ actionCtx ++ objCtx
  if contexts.isEmpty then "Standard scene with typical elements."
  else String.intercalate ". " contexts ++ "."

/-- The mojibake warning mark that the source file prepends to every highlight
(the file stores the bytes of a misdecoded warning emoji), followed by a space. -/
def warn_mark : String := "‚ö†Ô∏è "

/-- Mutable state of `_check_suspicious_activity`: the running level and the
highlight list accumulated so far. -/
structure ClassState where
  level : SuspicionLevel
  highlights : List String
deriving DecidableEq, Repr

/-- Match predicate for one suspicious pattern: `all(item in objects + [action, time]
for item in pattern)`. -/
def rule_matches (objects : List String) (action time : String)
    (rule : List String × String) : Bool :=
  rule.1.all (fun item => inList item (objects ++ [action, time]))

/-- One iteration of the `for pattern, warning in self.suspicious_patterns.items()`
loop: on a match, append the prefixed warning and set the level to SUSPICIOUS. -/
def patternStep (objects : List String) (action time : String)
    (st : ClassState) (rule : List String × String) : ClassState :=
  if rule_matches objects action time rule then
    { level := .SUSPICIOUS, highlights := st.highlights ++ [warn_mark ++ rule.2] }
  else st

/-- The `unusual_checks` list of `_check_suspicious_activity`, with each Python
condition evaluated to the boolean that Python's truthiness rules produce:
`["person", "running"] and time == "night"` is `time == "night"` because the
non-empty list literal is truthy, `["person"] and scene == "restricted"` is
`scene == "restricted"` for the same reason, and the bare list literal
`["crowd", "running"]` is itself truthy, so that condition is constantly true.
The `objects` parameter of the Python method is never consulted by these checks. -/
def unusual_checks (scene action time : String) : List (Bool × String) :=
  [ (time == "night", "Person running at night"),
    (scene == "restricted", "Unauthorized person in restricted area"),
    (action == "climbing" && scene != "gym", "Unusual climbing activity"),
    (true, "Multiple people running - possible emergency") ]

/-- One iteration of the `for condition, message in unusual_checks` loop: a true
condition appends the prefixed message and raises the level to UNUSUAL only when
the current level is still NORMAL. -/
def guardStep (st : ClassState) (chk : Bool × String) : ClassState :=
  if chk.1 then
    { level := if st.level = SuspicionLevel.NORMAL then .UNUSUAL else st.level,
      highlights := st.highlights ++ [warn_mark ++ chk.2] }
  else st

/-- Embedding of `VisionInterpreter._check_suspicious_activity`. -/
def check_suspicious_activity (objects : List String) (scene action time : String) :
    SuspicionLevel × List String :=
  let st1 := suspicious_patterns.foldl (patternStep objects action time)
    { level := .NORMAL, highlights := [] }
  let st2 := (unusual_checks scene action time).foldl guardStep st1
  (st2.level, st2.highlights)

/-- Input record of `VisionInterpreter.analyze`: each of the four keys the method
reads may be present or absent. -/
structure VisionInput where
  detected_objects : Option (List String)
  scene : Option String
  action : Option String
  time : Option String
deriving DecidableEq, Repr

/-- Embedding of `VisionInterpreter.analyze`. -/
def analyze (input : VisionInput) : VisionAnalysis :=
  let objects := input.detected_objects.getD []
  let scene := input.scene.getD "unknown"
  let action := input.action.getD "stationary"
  let time_of_day := input.time.getD "day"
  let scl := check_suspicious_activity objects scene action time_of_day
  { summary := generate_summary objects scene action,
    description := create_description objects scene action,
    context := analyze_context objects scene action,
    suspicion_level := scl.1,
    highlights := scl.2 }

/-- Python's `str.upper` restricted to the three level payloads actually rendered. -/
def levelUpper (l : SuspicionLevel) : String :=
  match l with
  | .NORMAL => "NORMAL"
  | .UNUSUAL => "UNUSUAL"
  | .SUSPICIOUS => "SUSPICIOUS"

/-- The separator line `"=" * 50`: fifty repetitions of the equals character. -/
def sepLine : String :=
  String.mk (List.replicate 50 (Char.ofNat 61))

/-- The mojibake no-alert sentinel line of `format_output`
(`"\n... No unusual activity detected"`). -/
def sentinelLine : String := "\n‚úÖ No unusual activity detected"

/-- The mojibake ALERTS header line of `format_output`. -/
def alertsHeader : String := "\n‚ö†Ô∏è ALERTS:"

/-- The fixed lines that `format_output` appends before the alerts section. -/
def output_head (analysis : VisionAnalysis) : List String :=
  [ sepLine,
    "VISION ANALYSIS REPORT",
    sepLine,
    "\nüìç SUMMARY: " ++ analysis.summary,
    "\nüìù DESCRIPTION: " ++ analysis.description,
    "\nüîç CONTEXT: " ++ analysis.context,
    "\nüö® SUSPICION LEVEL: " ++ levelUpper analysis.suspicion_level ]

/-- The `output` list that `VisionInterpreter.format_output` builds before joining. -/
def output_lines (analysis : VisionAnalysis) : List String :=
  output_head analysis ++
    (if analysis.highlights.isEmpty then [sentinelLine]
     else alertsHeader :: analysis.highlights.map (fun h => "  - " ++ h)) ++
    ["\n" ++ sepLine]

/-- Embedding of `VisionInterpreter.format_output`. -/
def format_output (analysis : VisionAnalysis) : String :=
  String.intercalate "\n" (output_lines analysis)

/-!
Dynamic model.  `analyze` is documented as accepting an arbitrary key-valued
record, so the values bound to the four keys it reads may have any Python type.
The fragment below models the dynamic Python values and the exact operations
`analyze` performs on them (truthiness, indexing, iteration, membership, list
concatenation, string conversion, equality with a string), each raising
`TypeError`/`IndexError` exactly where CPython does.
-/

/-- A dynamic Python value, restricted to the types relevant here. -/
inductive PyVal where
  | noneV : PyVal
  | int : Int → PyVal
  | str : String → PyVal
  | list : List PyVal → PyVal
deriving Repr

/-- Python truthiness (`bool(v)`), as used by `if not objects:`. -/
def PyVal.truthy : PyVal → Bool
  | .noneV => false
  | .int n => n != 0
  | .str s => s != ""
  | .list l => !l.isEmpty

mutual
/-- Python `repr`, as used by `str` on a list (string quoting is reproduced for
quote-free strings; escaping inside the quotes is elided). -/
def PyVal.pyRepr : PyVal → String
  | .noneV => "None"
  | .int n => toString n
  | .str s => "\x27" ++ s ++ "\x27"
  | .list l => "[" ++ pyReprList l ++ "]"

/-- Comma-joined `repr`s of the elements of a Python list. -/
def pyReprList : List PyVal → String
  | [] => ""
  | [v] => PyVal.pyRepr v
  | v :: rest => PyVal.pyRepr v ++ ", " ++ pyReprList rest
end

/-- Python `str(v)`, as used by f-string interpolation. -/
def PyVal.pyStr : PyVal → String
  | .noneV => "None"
  | .int n => toString n
  | .str s => s
  | .list l => "[" ++ pyReprList l ++ "]"

/-- Python equality of a value against a string literal (`v == "lit"`); equality
between a non-string value and a string is `False` in Python, never an error. -/
def PyVal.eqStr : PyVal → String → Bool
  | .str s, y => s == y
  | _, _ => false

/-- Python subscripting `v[i]` for a non-negative index, as used by `objects[0]`. -/
def PyVal.getItem : PyVal → Nat → Except String PyVal
  | .list l, i =>
    match l.get? i with
    | some v => .ok v
    | Option.none => .error "IndexError"
  | .str s, i =>
    match s.data.get? i with
    | some c => .ok (.str (String.singleton c))
    | Option.none => .error "IndexError"
  | _, _ => .error "TypeError"

/-- Python iteration (`for x in v`): lists yield their elements, strings yield
their characters as one-character strings, anything else raises `TypeError`. -/
def PyVal.iterate : PyVal → Except String (List PyVal)
  | .list l => .ok l
  | .str s => .ok (s.data.map (fun c => .str (String.singleton c)))
  | _ => .error "TypeError"

/-- Contiguous-sublist test on character lists, used to model Python's substring
membership `x in s`. -/
def charsIn (needle : List Char) : List Char → Bool
  | [] => needle.isEmpty
  | c :: rest => needle.isPrefixOf (c :: rest) || charsIn needle rest

/-- Python membership of a string in a dynamic container (`"lit" in v`): for a
list, element-wise equality; for a string, substring containment; otherwise
`TypeError` (argument not iterable). -/
def pyInStr (x : String) (container : PyVal) : Except String Bool :=
  match container with
  | .list l => .ok (l.any (fun v => v.eqStr x))
  | .str s => .ok (charsIn x.data s.data)
  | _ => .error "TypeError"

/-- Python `str`-typed extraction, as used by `", ".join(...)`, which raises
`TypeError` on any non-string element. -/
def expectStr : PyVal → Except String String
  | .str s => .ok s
  | _ => .error "TypeError"

/-- Dynamic-value version of `_generate_summary`. -/
def generate_summary_dyn (objects scene action : PyVal) : Except String String := do
  if !objects.truthy then
    return "Empty " ++ scene.pyStr ++ " scene detected."
  else
    let main_subject ← objects.getItem 0
    return "A " ++ main_subject.pyStr ++ " " ++ action.pyStr ++ " in a " ++
      scene.pyStr ++ " setting."

/-- Dynamic-value version of the inner combination search of `_create_description`
(first catalog rule whose trigger contains `"person"` and the given object). -/
def obj_first_label_dyn (obj : PyVal) : Option String :=
  (common_combinations.find?
    (fun cr => inList "person" cr.1 && cr.1.any (fun y => obj.eqStr y))).map (·.2)

/-- Dynamic-value version of `_create_description`. -/
def create_description_dyn (objects scene action : PyVal) : Except String String := do
  if !objects.truthy then
    return "The camera shows an empty " ++ scene.pyStr ++ " with no significant activity."
  let hasPerson ← pyInStr "person" objects
  let items ← objects.iterate
  let desc_parts : List String ←
    if hasPerson then do
      let person_desc := items.foldl
        (fun desc obj =>
          if !(obj.eqStr "person") then
            match obj_first_label_dyn obj with
            | some activity => "A person is " ++ activity
            | Option.none => desc
          else desc)
        ("A person is " ++ action.pyStr)
      pure [person_desc]
    else pure []
  let other_objects := items.filter (fun o => !(o.eqStr "person"))
  let desc_parts ←
    if other_objects.isEmpty then pure desc_parts
    else if other_objects.length == 1 then
      pure (desc_parts ++ ["A " ++ (other_objects.headD .noneV).pyStr ++ " is also visible"])
    else do
      let strs ← other_objects.mapM expectStr
      pure (desc_parts ++ ["Also visible: " ++ String.intercalate ", " strs])
  return String.intercalate ". " desc_parts ++ " on a " ++ scene.pyStr ++ "."

/-- Dynamic-value version of `_analyze_context`.  Scene/action comparisons against
string literals never raise; the object-combination guards iterate `objects` via
`in` and therefore raise `TypeError` on a non-iterable `objects` value. -/
def analyze_context_dyn (objects scene action : PyVal) : Except String String := do
  let sceneCtx : List String :=
    if ["street", "sidewalk", "road"].any (fun y => scene.eqStr y) then
      ["This appears to be a public urban area"]
    else if ["park", "garden", "field"].any (fun y => scene.eqStr y) then
      ["This is an outdoor recreational area"]
    else if ["home", "house", "apartment"].any (fun y => scene.eqStr y) then
      ["This is a residential setting"]
    else if ["store", "shop", "mall"].any (fun y => scene.eqStr y) then
      ["This is a commercial environment"]
    else []
  let actionCtx : List String :=
    if ["running", "jogging"].any (fun y => action.eqStr y) then
      ["showing active movement"]
    else if ["sitting", "standing", "waiting"].any (fun y => action.eqStr y) then
      ["with minimal activity"]
    else if ["walking", "strolling"].any (fun y => action.eqStr y) then
      ["with normal pedestrian movement"]
    else []
  let c1 ← do
    let a ← pyInStr "person" objects
    if a then pyInStr "dog" objects else pure false
  let objCtx : List String ←
    if c1 then pure ["likely a pet owner during routine exercise"]
    else do
      let a ← pyInStr "person" objects
      let c2 ← if a then pyInStr "bicycle" objects else pure false
      if c2 then pure ["suggesting eco-friendly transportation or recreation"]
      else pure []
  let contexts := sceneCtx ++ actionCtx ++ objCtx
  if contexts.isEmpty then return "Standard scene with typical elements."
  else return String.intercalate ". " contexts ++ "."

/-- Dynamic-value version of `_check_suspicious_activity`.  The expression
`objects + [action, time]` raises `TypeError` unless `objects` is a list; it is
evaluated as soon as the first pattern's first token is tested, and both catalogs
and all patterns are non-empty, so the check happens on every call. -/
def check_suspicious_activity_dyn (objects scene action time : PyVal) :
    Except String (SuspicionLevel × List String) := do
  let facts : List PyVal ←
    match objects with
    | .list l => pure (l ++ [action, time])
    | _ => Except.error "TypeError"
  let st1 := suspicious_patterns.foldl
    (fun st rule =>
      if rule.1.all (fun item => facts.any (fun v => v.eqStr item)) then
        { level := SuspicionLevel.SUSPICIOUS,
          highlights := st.highlights ++ [warn_mark ++ rule.2] }
      else st)
    { level := SuspicionLevel.NORMAL, highlights := ([] : List String) }
  let checks : List (Bool × String) :=
    [ (time.eqStr "night", "Person running at night"),
      (scene.eqStr "restricted", "Unauthorized person in restricted area"),
      (action.eqStr "climbing" && !(scene.eqStr "gym"), "Unusual climbing activity"),
      (true, "Multiple people running - possible emergency") ]
  let st2 := checks.foldl guardStep st1
  return (st2.level, st2.highlights)

/-- Input record of `analyze` in the dynamic model: each key may be absent or
bound to an arbitrary Python value. -/
structure DynInput where
  detected_objects : Option PyVal
  scene : Option PyVal
  action : Option PyVal
  time : Option PyVal

/-- Dynamic-value version of `VisionInterpreter.analyze`: the four helper calls
run in order and the first raised exception aborts the call. -/
def analyze_dyn (input : DynInput) : Except String VisionAnalysis := do
  let objects := input.detected_objects.getD (.list [])
  let scene := input.scene.getD (.str "unknown")
  let action := input.action.getD (.str "stationary")
  let time_of_day := input.time.getD (.str "day")
  let summary ← generate_summary_dyn objects scene action
  let description ← create_description_dyn objects scene action
  let context ← analyze_context_dyn objects scene action
  let scl ← check_suspicious_activity_dyn objects scene action time_of_day
  return { summary := summary,
           description := description,
           context := context,
           suspicion_level := scl.1,
           highlights := scl.2 }

/-- Typed record embedded into the dynamic model: a well-typed list of detected
objects and well-typed strings for the scalar fields. -/
def DynInput.ofTyped (input : VisionInput) : DynInput :=
  { detected_objects := input.detected_objects.map (fun l => .list (l.map .str)),
    scene := input.scene.map .str,
    action := input.action.map .str,
    time := input.time.map .str }

/-- Spec-reading of the description step, for comparison with the code: the
person-clause according to the words "last matching combination in
catalog-iteration (insertion) order wins", i.e. a fold over the catalog in
which every matching rule (one containing `"person"` and some other detected
object) overwrites the clause. -/
def person_desc_catalog_order (objects : List String) (action : String) : String :=
  common_combinations.foldl
    (fun desc cr =>
      if inList "person" cr.1 && objects.any (fun obj => obj != "person" && inList obj cr.1)
      then "A person is " ++ cr.2
      else desc)
    ("A person is " ++ action)

/-- Label of the last object in detection order that matches some person
combination rule, each object resolved to its first matching rule in catalog
insertion order; this is the clause the code's overwrite loop actually keeps. -/
def last_matching_label (objects : List String) : Option String :=
  objects.reverse.findSome?
    (fun obj => if obj != "person" then obj_first_label obj else Option.none)

/-! Helper lemmas about the two classification folds. -/

lemma patternFold_highlights (objects : List String) (action time : String) :
    ∀ (rules : List (List String × String)) (st : ClassState),
    (rules.foldl (patternStep objects action time) st).highlights =
      st.highlights ++
        (rules.filter (rule_matches objects action time)).map (fun r => warn_mark ++ r.2) := by
  intro rules
  induction rules with
  | nil => intro st; simp
  | cons r rs ih =>
    intro st
    simp only [List.foldl_cons, List.filter_cons]
    by_cases h : rule_matches objects action time r
    · simp [h, ih, patternStep]
    · simp [h, ih, patternStep]

lemma patternFold_level (objects : List String) (action time : String) :
    ∀ (rules : List (List String × String)) (st : ClassState),
    (rules.foldl (patternStep objects action time) st).level =
      if rules.any (rule_matches objects action time) then .SUSPICIOUS else st.level := by
  intro rules
  induction rules with
  | nil => intro st; simp
  | cons r rs ih =>
    intro st
    simp only [List.foldl_cons, List.any_cons]
    by_cases h : rule_matches objects action time r
    · simp [h, ih, patternStep]
    · simp only [Bool.not_eq_true] at h
      have hp : patternStep objects action time st r = st := by simp [patternStep, h]
      rw [hp, ih st]
      simp only [h, Bool.false_or]

lemma guardFold_highlights :
    ∀ (checks : List (Bool × String)) (st : ClassState),
    (checks.foldl guardStep st).highlights =
      st.highlights ++ (checks.filter (fun c => c.1)).map (fun c => warn_mark ++ c.2) := by
  intro checks
  induction checks with
  | nil => intro st; simp
  | cons c cs ih =>
    intro st
    simp only [List.foldl_cons, List.filter_cons]
    by_cases h : c.1
    · simp [h, ih, guardStep]
    · simp [h, ih, guardStep]

lemma guardStep_level_mono (st : ClassState) (chk : Bool × String) :
    st.level.rank ≤ (guardStep st chk).level.rank := by
  unfold guardStep
  by_cases h : chk.1
  · simp only [h, if_true]
    cases hl : st.level <;> simp [hl, SuspicionLevel.rank]
  · simp [h]

lemma guardStep_level_elevated (st : ClassState) (chk : Bool × String) (h : chk.1 = true) :
    1 ≤ (guardStep st chk).level.rank := by
  unfold guardStep
  simp only [h, if_true]
  cases hl : st.level <;> simp [hl, SuspicionLevel.rank]

lemma guardFold_level_mono :
    ∀ (checks : List (Bool × String)) (st : ClassState),
    st.level.rank ≤ (checks.foldl guardStep st).level.rank := by
  intro checks
  induction checks with
  | nil => intro st; simp
  | cons c cs ih =>
    intro st
    simp only [List.foldl_cons]
    exact le_trans (guardStep_level_mono st c) (ih (guardStep st c))

lemma guardFold_suspicious :
    ∀ (checks : List (Bool × String)) (st : ClassState),
    st.level = .SUSPICIOUS → (checks.foldl guardStep st).level = .SUSPICIOUS := by
  intro checks
  induction checks with
  | nil => intro st h; simpa using h
  | cons c cs ih =>
    intro st h
    simp only [List.foldl_cons]
    apply ih
    unfold guardStep
    by_cases hc : c.1 <;> simp [hc, h]

lemma guardFold_elevated :
    ∀ (checks : List (Bool × String)) (st : ClassState),
    checks.any (fun c => c.1) = true → 1 ≤ (checks.foldl guardStep st).level.rank := by
  intro checks
  induction checks with
  | nil => intro st h; simp at h
  | cons c cs ih =>
    intro st h
    simp only [List.foldl_cons]
    by_cases hc : c.1
    · exact le_trans (guardStep_level_elevated st c hc) (guardFold_level_mono cs (guardStep st c))
    · apply ih
      simp only [List.any_cons, hc] at h
      simpa using h

/-- C1: within one `classify` call the suspicion level starts at NORMAL and is
monotonically non-decreasing: every catalog-pattern step either leaves the state
unchanged or sets the level to SUSPICIOUS, no pattern or guard step lowers the
rank, a true ad-hoc guard raises the level to UNUSUAL exactly when the current
level is still NORMAL and otherwise preserves it, and once the level is
SUSPICIOUS the whole remaining guard phase keeps it SUSPICIOUS. -/
theorem C1_classify_monotone :
    (∀ (objects : List String) (action time : String) (st : ClassState)
        (rule : List String × String),
      st.level.rank ≤ (patternStep objects action time st rule).level.rank) ∧
    (∀ (objects : List String) (action time : String) (st : ClassState)
        (rule : List String × String),
      patternStep objects action time st rule = st ∨
        (patternStep objects action time st rule).level = .SUSPICIOUS) ∧
    (∀ (st : ClassState) (chk : Bool × String),
      st.level.rank ≤ (guardStep st chk).level.rank) ∧
    (∀ (st : ClassState) (chk : Bool × String), chk.1 = true →
      st.level = .NORMAL → (guardStep st chk).level = .UNUSUAL) ∧
    (∀ (st : ClassState) (chk : Bool × String), chk.1 = true →
      st.level ≠ .NORMAL → (guardStep st chk).level = st.level) ∧
    (∀ (checks : List (Bool × String)) (st : ClassState),
      st.level = .SUSPICIOUS → (checks.foldl guardStep st).level = .SUSPICIOUS) ∧
    (∀ (objects : List String) (scene action time : String),
      check_suspicious_activity objects scene action time =
        (let st2 := (unusual_checks scene action time).foldl guardStep
          (suspicious_patterns.foldl (patternStep objects action time)
            { level := .NORMAL, highlights := [] })
         (st2.level, st2.highlights))) := by
  refine ⟨?_, ?_, ?_, ?_, ?_, ?_, ?_⟩
  · intro objects action time st rule
    unfold patternStep
    by_cases h : rule_matches objects action time rule
    · simp only [h, if_true]
      cases hl : st.level <;> simp [SuspicionLevel.rank]
    · simp [h]
  · intro objects action time st rule
    unfold patternStep
    by_cases h : rule_matches objects action time rule
    · exact Or.inr (by simp [h])
    · exact Or.inl (by simp [h])
  · exact guardStep_level_mono
  · intro st chk h hn
    unfold guardStep
    simp [h, hn]
  · intro st chk h hn
    unfold guardStep
    simp [h, hn]
  · exact guardFold_suspicious
  · intro objects scene action time
    rfl

/-- C1 witness: the monotonicity facts instantiated at concrete states, with the
hypotheses of each conditional conjunct discharged on concrete data. -/
theorem C1_classify_monotone_witness :
    (({ level := .NORMAL, highlights := [] } : ClassState).level.rank ≤
      (patternStep ["person", "bag"] "running" "day"
        { level := .NORMAL, highlights := [] } (["person", "running", "bag"],
          "potential theft in progress")).level.rank) ∧
    ((true, "Multiple people running - possible emergency").1 = true ∧
      ({ level := .NORMAL, highlights := [] } : ClassState).level = .NORMAL ∧
      (guardStep { level := .NORMAL, highlights := [] }
        (true, "Multiple people running - possible emergency")).level = .UNUSUAL) ∧
    ((true, "Person running at night").1 = true ∧
      ({ level := .SUSPICIOUS, highlights := [] } : ClassState).level ≠ .NORMAL ∧
      (guardStep { level := .SUSPICIOUS, highlights := [] }
        (true, "Person running at night")).level = .SUSPICIOUS) ∧
    (({ level := .SUSPICIOUS, highlights := [] } : ClassState).level = .SUSPICIOUS ∧
      ((unusual_checks "unknown" "stationary" "day").foldl guardStep
        { level := .SUSPICIOUS, highlights := [] }).level = .SUSPICIOUS) := by
  refine ⟨?_, ⟨rfl, rfl, ?_⟩, ⟨rfl, by decide, ?_⟩, ⟨rfl, ?_⟩⟩
  · exact C1_classify_monotone.1 ["person", "bag"] "running" "day" _ _
  · exact C1_classify_monotone.2.2.2.1 _ _ rfl rfl
  · exact C1_classify_monotone.2.2.2.2.1 _ _ rfl (by decide)
  · exact C1_classify_monotone.2.2.2.2.2.1 _ _ rfl

/-- C2: a suspicion-catalog rule matches exactly when every token of its trigger
tuple occurs in `objects ++ [action, time]`; the highlight list of `classify`
consists of the warn-marked warnings of exactly the matching catalog rules, in
catalog order, followed by the guard messages; any catalog match forces the
final level to SUSPICIOUS; and on the concrete observation
`objects = ["person", "bag"], action = "running", time = "day"` the result is
SUSPICIOUS with a highlight containing "potential theft in progress". -/
theorem C2_pattern_matching :
    (∀ (objects : List String) (action time : String) (rule : List String × String),
      rule_matches objects action time rule =
        rule.1.all (fun item => inList item (objects ++ [action, time]))) ∧
    (∀ (objects : List String) (scene action time : String),
      (check_suspicious_activity objects scene action time).2 =
        (suspicious_patterns.filter (rule_matches objects action time)).map
          (fun r => warn_mark ++ r.2) ++
        ((unusual_checks scene action time).filter (fun c => c.1)).map
          (fun c => warn_mark ++ c.2)) ∧
    (∀ (objects : List String) (scene action time : String),
      suspicious_patterns.any (rule_matches objects action time) = true →
      (check_suspicious_activity objects scene action time).1 = .SUSPICIOUS) ∧
    ((check_suspicious_activity ["person", "bag"] "unknown" "running" "day").1 =
        .SUSPICIOUS ∧
      warn_mark ++ "potential theft in progress" ∈
        (check_suspicious_activity ["person", "bag"] "unknown" "running" "day").2) := by
  refine ⟨fun _ _ _ _ => rfl, ?_, ?_, ?_, ?_⟩
  · intro objects scene action time
    unfold check_suspicious_activity
    simp [guardFold_highlights, patternFold_highlights]
  · intro objects scene action time h
    unfold check_suspicious_activity
    apply guardFold_suspicious
    simp [patternFold_level, h]
  · decide
  · decide

/-- C2 witness: the conditional conjunct of `C2_pattern_matching` applied at the
concrete theft observation, whose catalog match is checked by `decide`. -/
theorem C2_pattern_matching_witness :
    suspicious_patterns.any (rule_matches ["person", "bag"] "running" "day") = true ∧
    (check_suspicious_activity ["person", "bag"] "unknown" "running" "day").1 =
      .SUSPICIOUS :=
  ⟨by decide, C2_pattern_matching.2.2.1 ["person", "bag"] "unknown" "running" "day" (by decide)⟩

/-- C3 (code behavior at the failing input): on an observation containing neither
"crowd" nor "running" anywhere, `classify` still appends the
"Multiple people running - possible emergency" highlight and raises the level,
because the guard's Python condition is the constantly-truthy list literal
`["crowd", "running"]`. -/
theorem C3_code_behavior :
    check_suspicious_activity [] "unknown" "stationary" "day" =
      (.UNUSUAL, [warn_mark ++ "Multiple people running - possible emergency"]) := by
  decide

/-- C4 (code behavior at the failing input): with `action = "stationary"` and
`time = "night"`, `classify` appends the "Person running at night" highlight,
because `["person", "running"] and time == "night"` evaluates in Python to just
`time == "night"` (the list literal is truthy). -/
theorem C4_code_behavior :
    check_suspicious_activity [] "unknown" "stationary" "night" =
      (.UNUSUAL,
        [warn_mark ++ "Person running at night",
         warn_mark ++ "Multiple people running - possible emergency"]) := by
  decide

/-- C5 (code behavior): for an empty objects list, `summarize` and `describe` do
return the "empty scene" sentences referencing the given scene; but on the
all-defaults observation (empty objects, scene "unknown", action "stationary",
time "day") `classify` returns UNUSUAL with one highlight, not NORMAL with an
empty list, because the constantly-truthy crowd/running guard fires. -/
theorem C5_empty_scene_behavior :
    (∀ (scene action : String),
      generate_summary [] scene action = "Empty " ++ scene ++ " scene detected." ∧
      create_description [] scene action =
        "The camera shows an empty " ++ scene ++ " with no significant activity.") ∧
    analyze { detected_objects := Option.none, scene := Option.none,
              action := Option.none, time := Option.none } =
      { summary := "Empty unknown scene detected.",
        description := "The camera shows an empty unknown with no significant activity.",
        context := "Standard scene with typical elements.",
        suspicion_level := .UNUSUAL,
        highlights := [warn_mark ++ "Multiple people running - possible emergency"] } := by
  exact ⟨fun scene action => ⟨rfl, rfl⟩, by decide⟩

/-- The overwrite loop of `_create_description` keeps the label contributed by
the last matching object in detection order (each object resolved to its first
matching rule in catalog order), for any initial clause. -/
lemma person_fold_last_match :
    ∀ (objects : List String) (ini : String),
    objects.foldl
      (fun desc obj =>
        if obj != "person" then
          match obj_first_label obj with
          | some activity => "A person is " ++ activity
          | Option.none => desc
        else desc) ini =
      match objects.reverse.findSome?
        (fun obj => if obj != "person" then obj_first_label obj else Option.none) with
      | some activity => "A person is " ++ activity
      | Option.none => ini := by
  intro objects
  induction objects with
  | nil => intro ini; simp
  | cons o rest ih =>
    intro ini
    simp only [List.foldl_cons, List.reverse_cons, List.findSome?_append]
    rw [ih]
    cases hr : rest.reverse.findSome?
        (fun obj => if obj != "person" then obj_first_label obj else Option.none) with
    | some a => simp
    | none =>
      rw [Option.none_or]
      by_cases hp : (o != "person") = true
      · simp only [List.findSome?_cons, List.findSome?_nil, hp, if_true]
        cases hl : obj_first_label o with
        | some a => simp [hl]
        | none => simp [hl]
      · simp only [Bool.not_eq_true] at hp
        have hpe : o = "person" := by simpa using hp
        subst hpe
        simp

/-- C6 counterexample: on `objects = ["person", "bag", "dog"]` the code's
person-clause is "A person is walking a dog" (the dog is the last matching
object in detection order), while the claim's catalog-iteration-order reading
predicts "A person is carrying belongings" (the bag rule comes later in catalog
insertion order), so the claim's reading disagrees with the code. -/
theorem C6_counterexample :
    create_description ["person", "bag", "dog"] "street" "walking" =
      "A person is walking a dog. Also visible: bag, dog on a street." ∧
    person_desc_fold ["person", "bag", "dog"] "walking" = "A person is walking a dog" ∧
    person_desc_catalog_order ["person", "bag", "dog"] "walking" =
      "A person is carrying belongings" ∧
    person_desc_fold ["person", "bag", "dog"] "walking" ≠
      person_desc_catalog_order ["person", "bag", "dog"] "walking" := by
  refine ⟨by decide, by decide, by decide, by decide⟩

/-- C6 (amended): in `describe`, later matches in object detection order
overwrite earlier ones — the person-clause holds the label of the first matching
catalog rule (insertion order) of the last matching object (detection order) —
and `describe({objects: ["person", "dog"], action: "walking", scene: "street"})`
uses the "walking a dog" label with the trailing "on a street." qualifier. -/
theorem C6_last_object_wins :
    (∀ (objects : List String) (action : String),
      person_desc_fold objects action =
        match last_matching_label objects with
        | some activity => "A person is " ++ activity
        | Option.none => "A person is " ++ action) ∧
    create_description ["person", "dog"] "street" "walking" =
      "A person is walking a dog. A dog is also visible on a street." := by
  constructor
  · intro objects action
    unfold person_desc_fold last_matching_label
    exact person_fold_last_match objects ("A person is " ++ action)
  · decide

/-- C7: whenever `scene = "restricted"`, `classify` appends the
"Unauthorized person in restricted area" highlight and returns a level of rank
at least UNUSUAL, for every objects list, action and time. -/
theorem C7_restricted_scene (objects : List String) (action time : String) :
    warn_mark ++ "Unauthorized person in restricted area" ∈
      (check_suspicious_activity objects "restricted" action time).2 ∧
    1 ≤ (check_suspicious_activity objects "restricted" action time).1.rank := by
  constructor
  · simp only [check_suspicious_activity]
    rw [guardFold_highlights]
    apply List.mem_append.mpr
    right
    apply List.mem_map.mpr
    refine ⟨(("restricted" == "restricted"),
      "Unauthorized person in restricted area"), List.mem_filter.mpr ⟨?_, by decide⟩, rfl⟩
    simp [unusual_checks]
  · simp only [check_suspicious_activity]
    apply guardFold_elevated
    simp [unusual_checks]

/-- C9: `analyze` is a pure function of its input record (the engine state is
the constant rule catalogs), so two calls with identical input records produce
identical `VisionAnalysis` values. -/
theorem C9_deterministic (a b : VisionInput) (h : a = b) : analyze a = analyze b := by
  rw [h]

/-- C9 witness: determinism instantiated at a concrete input record. -/
theorem C9_deterministic_witness :
    analyze { detected_objects := some ["person"], scene := some "street",
              action := some "walking", time := some "day" } =
      analyze { detected_objects := some ["person"], scene := some "street",
                action := some "walking", time := some "day" } :=
  C9_deterministic _ _ rfl

/-- C10: for every input record, `classify` produces a non-empty highlight list
(the constantly-true crowd/running guard always appends its message) and a level
of rank at least UNUSUAL, and `format_output` therefore always takes the ALERTS
branch — the "No unusual activity detected" sentinel line is never rendered. -/
theorem C10_no_alert_branch_unreachable (input : VisionInput) :
    (analyze input).highlights ≠ [] ∧
    1 ≤ (analyze input).suspicion_level.rank ∧
    output_lines (analyze input) =
      output_head (analyze input) ++
        (alertsHeader :: (analyze input).highlights.map (fun h => "  - " ++ h)) ++
        ["\n" ++ sepLine] := by
  have hmem : warn_mark ++ "Multiple people running - possible emergency" ∈
      (analyze input).highlights := by
    simp only [analyze, check_suspicious_activity]
    rw [guardFold_highlights]
    apply List.mem_append.mpr
    right
    apply List.mem_map.mpr
    exact ⟨(true, "Multiple people running - possible emergency"),
      List.mem_filter.mpr ⟨by simp [unusual_checks], rfl⟩, rfl⟩
  have hne : (analyze input).highlights ≠ [] := List.ne_nil_of_mem hmem
  refine ⟨hne, ?_, ?_⟩
  · simp only [analyze, check_suspicious_activity]
    apply guardFold_elevated
    simp [unusual_checks]
  · unfold output_lines
    rw [if_neg]
    simp only [List.isEmpty_eq_true]
    exact hne

/-! Bridging lemmas between the dynamic model and the typed embedding, used to
settle the totality claim about `analyze`. -/

lemma ok_bind {α β : Type} (a : α) (f : α → Except String β) :
    (Except.ok a >>= f) = f a := rfl

lemma except_pure {α : Type} (a : α) : (pure a : Except String α) = .ok a := rfl

lemma iterate_list (l : List PyVal) : PyVal.iterate (.list l) = .ok l := rfl

lemma eqStr_str (s y : String) : PyVal.eqStr (.str s) y = (s == y) := rfl

lemma bne_eq (x y : String) : (x != y) = !(x == y) := rfl

lemma string_beq_comm (a b : String) : (a == b) = (b == a) := by
  by_cases h : a = b
  · subst h; rfl
  · simp [h, Ne.symm h]

lemma any_beq_comm (l : List String) (x : String) :
    l.any (fun y => x == y) = l.any (fun y => y == x) := by
  induction l with
  | nil => rfl
  | cons hd t ih => rw [List.any_cons, List.any_cons, ih, string_beq_comm x hd]

lemma anyMap_eqStr (X : List String) (x : String) :
    (X.map PyVal.str).any (fun v => v.eqStr x) = inList x X := by
  unfold inList
  induction X with
  | nil => rfl
  | cons hd t ih => simp only [List.map_cons, List.any_cons, eqStr_str, ih]

lemma ok_ite {α : Type} (c : Prop) [Decidable c] (x y : α) :
    (if c then Except.ok x else Except.ok y) = (.ok (if c then x else y) : Except String α) := by
  by_cases h : c <;> simp [h]

lemma pyInStr_strList (x : String) (l : List String) :
    pyInStr x (.list (l.map .str)) = .ok (inList x l) := by
  have h : pyInStr x (PyVal.list (List.map PyVal.str l)) =
      Except.ok ((List.map PyVal.str l).any (fun v => PyVal.eqStr v x)) := rfl
  rw [h, anyMap_eqStr]

lemma anyLit_eqStr (ws : List String) (s : String) :
    ws.any (fun y => PyVal.eqStr (.str s) y) = inList s ws := by
  unfold inList
  simp only [eqStr_str]
  exact any_beq_comm ws s

lemma ite_bool_and (a b : Bool) : (if a then b else false) = (a && b) := by
  cases a <;> rfl

lemma obj_first_label_dyn_str (x : String) :
    obj_first_label_dyn (.str x) = obj_first_label x := by
  unfold obj_first_label_dyn obj_first_label
  have hpred : (fun cr : List String × String =>
      inList "person" cr.1 && cr.1.any (fun y => PyVal.eqStr (.str x) y)) =
      (fun cr : List String × String => inList "person" cr.1 && inList x cr.1) := by
    funext cr
    rw [anyLit_eqStr]
  rw [hpred]

lemma person_fold_dyn_typed (l : List String) (ini : String) :
    (l.map PyVal.str).foldl
      (fun desc obj =>
        if !(obj.eqStr "person") then
          match obj_first_label_dyn obj with
          | some activity => "A person is " ++ activity
          | Option.none => desc
        else desc) ini =
      l.foldl
        (fun desc obj =>
          if obj != "person" then
            match obj_first_label obj with
            | some activity => "A person is " ++ activity
            | Option.none => desc
          else desc) ini := by
  induction l generalizing ini with
  | nil => rfl
  | cons hd t ih =>
    simp only [List.map_cons, List.foldl_cons, eqStr_str, obj_first_label_dyn_str, bne_eq]
    exact ih _

lemma filter_eqStr_map (l : List String) :
    (l.map PyVal.str).filter (fun o => !(o.eqStr "person")) =
      (l.filter (fun o => o != "person")).map .str := by
  induction l with
  | nil => rfl
  | cons hd t ih =>
    simp only [List.map_cons, List.filter_cons, eqStr_str, bne_eq, ih]
    by_cases h : (!(hd == "person")) = true
    · simp [h]
    · simp [h]

lemma mapM_expectStr_map (l : List String) :
    (l.map PyVal.str).mapM expectStr = .ok l := by
  induction l with
  | nil => rfl
  | cons hd t ih =>
    rw [List.map_cons, List.mapM_cons, ih]
    rfl

lemma isEmpty_map {α β : Type} (f : α → β) (l : List α) :
    (l.map f).isEmpty = l.isEmpty := by
  cases l <;> rfl

lemma generate_summary_dyn_typed (l : List String) (s a : String) :
    generate_summary_dyn (.list (l.map .str)) (.str s) (.str a) =
      .ok (generate_summary l s a) := by
  cases l with
  | nil => rfl
  | cons hd t => rfl

lemma create_description_dyn_typed (l : List String) (s a : String) :
    create_description_dyn (.list (l.map .str)) (.str s) (.str a) =
      .ok (create_description l s a) := by
  cases l with
  | nil => rfl
  | cons hd t =>
    unfold create_description_dyn create_description
    rw [pyInStr_strList]
    simp only [ok_bind, iterate_list, PyVal.truthy, isEmpty_map, person_fold_dyn_typed,
      filter_eqStr_map, PyVal.pyStr, except_pure]
    by_cases hp : inList "person" (hd :: t) = true
    · simp only [hp, if_true, List.isEmpty_cons, Bool.not_false, if_false, ok_bind,
        except_pure]
      cases hY : (hd :: t).filter (fun o => o != "person") with
      | nil => rfl
      | cons y ys =>
        cases ys with
        | nil => rfl
        | cons z zs =>
          simp only [List.map_cons, List.mapM_cons, mapM_expectStr_map, except_pure,
            ok_bind, expectStr]
          rfl
    · simp only [Bool.not_eq_true] at hp
      simp only [hp, if_false, List.isEmpty_cons, Bool.not_false, ok_bind, except_pure]
      cases hY : (hd :: t).filter (fun o => o != "person") with
      | nil => rfl
      | cons y ys =>
        cases ys with
        | nil => rfl
        | cons z zs =>
          simp only [List.map_cons, List.mapM_cons, mapM_expectStr_map, except_pure,
            ok_bind, expectStr]
          rfl

lemma analyze_context_dyn_typed (l : List String) (s a : String) :
    analyze_context_dyn (.list (l.map .str)) (.str s) (.str a) =
      .ok (analyze_context l s a) := by
  unfold analyze_context_dyn analyze_context
  simp only [pyInStr_strList, ok_bind, ok_ite, ite_bool_and, except_pure, anyLit_eqStr]
  by_cases h1 : inList "person" l = true <;> by_cases h2 : inList "dog" l = true <;>
    by_cases h3 : inList "bicycle" l = true <;> simp [h1, h2, h3]

lemma check_suspicious_activity_dyn_typed (l : List String) (s a t : String) :
    check_suspicious_activity_dyn (.list (l.map .str)) (.str s) (.str a) (.str t) =
      .ok (check_suspicious_activity l s a t) := by
  unfold check_suspicious_activity_dyn check_suspicious_activity
  have hfacts : (l.map PyVal.str) ++ [.str a, .str t] = (l ++ [a, t]).map .str := by
    simp [List.map_append]
  simp only [ok_bind, except_pure, hfacts, anyMap_eqStr, eqStr_str, bne_eq]
  rfl

/-- C8 counterexample: a record whose `detected_objects` key holds the integer 5
(a present but malformed field) makes `analyze` raise `TypeError` — the integer
is truthy, so `_generate_summary` subscripts it with `objects[0]` — instead of
silently defaulting. -/
theorem C8_counterexample :
    analyze_dyn { detected_objects := some (.int 5), scene := Option.none,
                  action := Option.none, time := Option.none } =
      Except.error "TypeError" := rfl

/-- C8 (amended): `analyze` is total over records whose present fields are
well-typed — `detected_objects` a list of strings, the other three fields
strings — with every absent field silently defaulting (objects `[]`, scene
"unknown", action "stationary", time "day") and unknown string tokens merely
failing to match rules: in the dynamic model the call never raises and agrees
with the typed embedding. -/
theorem C8_well_typed_total (input : VisionInput) :
    analyze_dyn (DynInput.ofTyped input) = .ok (analyze input) := by
  obtain ⟨objs, scn, act, tim⟩ := input
  have hobj : (Option.map (fun l : List String => PyVal.list (l.map .str)) objs).getD
      (.list []) = .list ((objs.getD []).map .str) := by cases objs <;> rfl
  have hscn : (Option.map PyVal.str scn).getD (.str "unknown") =
      .str (scn.getD "unknown") := by cases scn <;> rfl
  have hact : (Option.map PyVal.str act).getD (.str "stationary") =
      .str (act.getD "stationary") := by cases act <;> rfl
  have htim : (Option.map PyVal.str tim).getD (.str "day") =
      .str (tim.getD "day") := by cases tim <;> rfl
  simp only [analyze_dyn, DynInput.ofTyped, hobj, hscn, hact, htim]
  rw [generate_summary_dyn_typed]
  simp only [ok_bind]
  rw [create_description_dyn_typed]
  simp only [ok_bind]
  rw [analyze_context_dyn_typed]
  simp only [ok_bind]
  rw [check_suspicious_activity_dyn_typed]
  simp only [ok_bind, except_pure]
  rfl

end VisionMind
